import Mathlib

/-!
Verification development for the Corprex AI platform's multi-provider
chat-completion routing and conversation-state layer.

The definitions below are shallow embeddings of the TypeScript source:
  - `src/app/api/chat/route.ts` (the live `POST /api/chat` handler),
  - `src/lib/ai-models.ts` (the model catalog),
  - `src/app/chat/page.tsx` (client conversation state),
  - the unnamed variants (`src/unnamed/part_001`, `part_003`, `part_004`)
    where a claim cites them.
JavaScript strings are modelled as Lean `String`, with the JS operations
`startsWith`, `includes` and `slice(0, n)` expressed on the character list.
-/

namespace Corprex

/-- JS `s.startsWith(pat)`. -/
def jsStartsWith (s pat : String) : Bool :=
  pat.toList.isPrefixOf s.toList

/-- Boolean substring-occurrence test on character lists. -/
def listInfixOf (pat : List Char) : List Char → Bool
  | [] => pat.isEmpty
  | c :: rest => pat.isPrefixOf (c :: rest) || listInfixOf pat rest

/-- JS `s.includes(pat)` (substring occurrence). -/
def jsIncludes (s pat : String) : Bool :=
  listInfixOf pat.toList s.toList

/-- JS `s.slice(0, n)` for `n ≥ 0`. -/
def jsSlice (s : String) (n : Nat) : String :=
  String.mk (s.toList.take n)

/-- JS `s.length` (character count of the modelled string). -/
def jsLength (s : String) : Nat :=
  s.toList.length

/-- Provider tags distinguished by the chat dispatcher's branch structure. -/
inductive Provider where
  | openai
  | anthropic
  | google
  | groq
  | fallback
deriving DecidableEq

/-- Provider classification of the live route `src/app/api/chat/route.ts`
(lines 29, 77, 99, 115): `model.startsWith('gpt')`, else
`model.startsWith('claude')`, else `model.includes('gemini')`, else
`model.includes('llama') || model.includes('mixtral')`, else default. -/
def providerFor (model : String) : Provider :=
  if jsStartsWith model "gpt" then .openai
  else if jsStartsWith model "claude" then .anthropic
  else if jsIncludes model "gemini" then .google
  else if jsIncludes model "llama" || jsIncludes model "mixtral" then .groq
  else .fallback

/-- Classification as the spec words it (`provider_for`): the claude rule is
`contains "claude"`, substring-based.  This also matches the unnamed variant
`src/unnamed/part_001` (line 52: `model.includes('claude')`). -/
def providerForSpec (model : String) : Provider :=
  if jsStartsWith model "gpt" then .openai
  else if jsIncludes model "claude" then .anthropic
  else if jsIncludes model "gemini" then .google
  else if jsIncludes model "llama" || jsIncludes model "mixtral" then .groq
  else .fallback

/-- A chat message as sent to `POST /api/chat`: a role/content pair. -/
structure Msg where
  role : String
  content : String
deriving DecidableEq

/-- A message in the shape the Anthropic SDK call receives. -/
structure AnthropicMsg where
  role : String
  content : String
deriving DecidableEq

/-- The argument of `anthropic.messages.create` in `route.ts` lines 83-92:
model, coerced message array, optional top-level system prompt. -/
structure AnthropicReq where
  model : String
  messages : List AnthropicMsg
  system : Option String
deriving DecidableEq

/-- Request shaping of the Anthropic branch, `route.ts` lines 87-91:
`messages.filter(m => m.role !== 'system').map(m => ({ role: m.role === 'user'
? 'user' : 'assistant', content: m.content }))`, with
`system: messages.find(m => m.role === 'system')?.content`. -/
def anthropicRequest (model : String) (messages : List Msg) : AnthropicReq :=
  { model := model
    messages := (messages.filter (fun m => !(m.role == "system"))).map
      (fun m => { role := if m.role == "user" then "user" else "assistant"
                  content := m.content })
    system := (messages.find? (fun m => m.role == "system")).map Msg.content }

/-- The claimed coercion rule, following the spec words: assistant if the
message is marked assistant, user otherwise.  Kept for comparison with
`anthropicRequest`, whose rule runs in the opposite direction. -/
def anthropicRequestSpec (model : String) (messages : List Msg) : AnthropicReq :=
  { model := model
    messages := (messages.filter (fun m => !(m.role == "system"))).map
      (fun m => { role := if m.role == "assistant" then "assistant" else "user"
                  content := m.content })
    system := (messages.find? (fun m => m.role == "system")).map Msg.content }

/-- One turn of history in the Google SDK chat shape. -/
structure GoogleHistEntry where
  role : String
  text : String
deriving DecidableEq

/-- The conversational payload handed to the Google SDK: the model name, the
prior-turn history, and the content of the new turn.  The live route calls
`generateContent`, which submits a single turn and carries no history. -/
structure GoogleChatCall where
  model : String
  history : List GoogleHistEntry
  newTurn : String
deriving DecidableEq

/-- Google request shaping of the unnamed variant `src/unnamed/part_003`
(lines 1310-1318): history is `cleanMessages.slice(0, -1)` with roles
remapped `assistant -> model` / otherwise `user`, and the last message
content is sent as the new turn via `chat.sendMessage`.  `none` models the
runtime throw on an empty message list. -/
def googleShapeVariant (cleanMessages : List Msg) : Option GoogleChatCall :=
  cleanMessages.getLast?.map (fun last =>
    { model := "gemini-1.5-flash"
      history := cleanMessages.dropLast.map
        (fun m => { role := if m.role == "assistant" then "model" else "user"
                    text := m.content })
      newTurn := last.content })

/-- The history-plus-new-turn shape the claim describes, following the spec
words: prior turns (all but the last) remapped `assistant -> model`,
`user -> user`, and the final message content as the new turn. -/
def googleShapeSpec (messages : List Msg) : Option (List GoogleHistEntry × String) :=
  messages.getLast?.map (fun last =>
    (messages.dropLast.map
      (fun m => { role := if m.role == "assistant" then "model" else "user"
                  text := m.content }),
     last.content))

/-- An outbound provider-SDK call recorded by the modelled route handler. -/
inductive ProviderCall where
  | openaiCall (model : String) (messages : List Msg) (stream : Bool)
  | anthropicCall (req : AnthropicReq)
  | googleCall (call : GoogleChatCall)
  | groqCall (model : String) (messages : List Msg)
deriving DecidableEq

/-- Parsed body of `POST /api/chat` after the destructuring defaults of
`route.ts` line 24 (`model = 'gpt-3.5-turbo'`, `stream = false`) have been
applied.  `temperature` and `max_tokens` are passed through to the SDK calls
unchanged and do not affect routing or response shape, so they are omitted. -/
structure ChatBody where
  messages : List Msg
  model : String
  stream : Bool
deriving DecidableEq

/-- Presence of the four provider credential environment variables; each SDK
client in `route.ts` lines 8-20 is constructed exactly when its variable is
present. -/
structure Env where
  openaiKey : Bool
  anthropicKey : Bool
  googleKey : Bool
  groqKey : Bool
deriving DecidableEq

/-- Outcomes the provider SDK calls would produce if made.  `Except.error e`
models a thrown exception with message `e`.  For OpenAI/Groq the ok value is
`choices[0]?.message?.content` coalesced to `""` when absent; for Anthropic,
`some t` when `content[0]` is a text block and `none` otherwise. -/
structure ProviderOutcomes where
  openaiChat : Except String String
  openaiStreamChunks : Except String (List String)
  anthropicMsg : Except String (Option String)
  googleText : Except String String
  groqChat : Except String String

/-- Response of the route: either a JSON body (key/value pairs) with an HTTP
status, or a raw streamed text body. -/
inductive ApiResponse where
  | json (status : Nat) (body : List (String × String))
  | streamBody (chunks : List String)
deriving DecidableEq

/-- The `POST` handler of `src/app/api/chat/route.ts`, lines 22-152,
together with the list of provider-SDK calls it performs.  `parsed` is the
outcome of `req.json()` (`Except.error` models the thrown parse failure
reaching the outer catch). -/
def routePOST (parsed : Except String ChatBody) (env : Env) (out : ProviderOutcomes) :
    ApiResponse × List ProviderCall :=
  match parsed with
  | .error msg =>
      (.json 500 [("content",
        "Sorry, an error occurred: " ++ (if msg == "" then "Unknown error" else msg) ++
          ". Please try again.")], [])
  | .ok body =>
      let model := body.model
      if jsStartsWith model "gpt" then
        if !env.openaiKey then
          (.json 200 [("content",
            "Welcome to Corprex AI! To enable OpenAI models, please add your OPENAI_API_KEY in Vercel settings.")], [])
        else if body.stream then
          match out.openaiStreamChunks with
          | .ok chunks =>
              (.streamBody chunks, [.openaiCall model body.messages true])
          | .error e =>
              (.json 200 [("content",
                "Error: " ++ e ++ ". Please check your API key and try again.")],
               [.openaiCall model body.messages true])
        else
          match out.openaiChat with
          | .ok c =>
              (.json 200 [("content", if c == "" then "No response generated" else c)],
               [.openaiCall model body.messages false])
          | .error e =>
              (.json 200 [("content",
                "Error: " ++ e ++ ". Please check your API key and try again.")],
               [.openaiCall model body.messages false])
      else if jsStartsWith model "claude" then
        if !env.anthropicKey then
          (.json 200 [("content",
            "To use Claude models, please add your ANTHROPIC_API_KEY in Vercel settings.")], [])
        else
          match out.anthropicMsg with
          | .ok (some t) =>
              (.json 200 [("content", t)],
               [.anthropicCall (anthropicRequest model body.messages)])
          | .ok none =>
              (.json 200 [("content", "No response generated")],
               [.anthropicCall (anthropicRequest model body.messages)])
          | .error e =>
              (.json 200 [("content",
                "Error: " ++ e ++ ". Please check your Anthropic API key.")],
               [.anthropicCall (anthropicRequest model body.messages)])
      else if jsIncludes model "gemini" then
        if !env.googleKey then
          (.json 200 [("content",
            "To use Gemini models, please add your GOOGLE_AI_API_KEY in Vercel settings.")], [])
        else
          match body.messages.getLast? with
          | none =>
              (.json 200 [("content",
                "Error: Cannot read properties of undefined (reading \x27content\x27). Please check your Google AI API key.")], [])
          | some last =>
            match out.googleText with
            | .ok t =>
                (.json 200 [("content", t)],
                 [.googleCall { model := "gemini-pro", history := [], newTurn := last.content }])
            | .error e =>
                (.json 200 [("content",
                  "Error: " ++ e ++ ". Please check your Google AI API key.")],
                 [.googleCall { model := "gemini-pro", history := [], newTurn := last.content }])
      else if jsIncludes model "llama" || jsIncludes model "mixtral" then
        if !env.groqKey then
          (.json 200 [("content",
            "To use Llama/Mixtral models, please add your GROQ_API_KEY in Vercel settings.")], [])
        else
          match out.groqChat with
          | .ok c =>
              (.json 200 [("content", if c == "" then "No response generated" else c)],
               [.groqCall model body.messages])
          | .error e =>
              (.json 200 [("content",
                "Error: " ++ e ++ ". Please check your Groq API key.")],
               [.groqCall model body.messages])
      else
        (.json 200 [("content",
          "I\x27m ready to assist you! Please select a valid AI model or add the required API keys in your Vercel settings.")], [])

/-- The value of the `content` key of a JSON response; `none` when the key is
absent or the response is a raw stream. -/
def responseContentOf : ApiResponse → Option String
  | .json _ kvs => kvs.lookup "content"
  | .streamBody _ => none

/-- The environment variable each provider branch names in its unavailable
message. -/
def envVarName : Provider → String
  | .openai => "OPENAI_API_KEY"
  | .anthropic => "ANTHROPIC_API_KEY"
  | .google => "GOOGLE_AI_API_KEY"
  | .groq => "GROQ_API_KEY"
  | .fallback => ""

/-- Whether the credential of a provider is present in the environment. -/
def envHasKey (env : Env) : Provider → Bool
  | .openai => env.openaiKey
  | .anthropic => env.anthropicKey
  | .google => env.googleKey
  | .groq => env.groqKey
  | .fallback => true

/-- A catalog entry of `src/lib/ai-models.ts`. -/
structure ModelConfig where
  id : String
  name : String
  provider : String
  description : String
  icon : String
deriving DecidableEq, Inhabited

/-- The static model catalog `AI_MODELS` of `src/lib/ai-models.ts` lines 1-37. -/
def AI_MODELS : List ModelConfig :=
  [ { id := "gpt-3.5-turbo", name := "GPT-3.5", provider := "OpenAI"
      description := "Fast and efficient", icon := "" }
  , { id := "gpt-4", name := "GPT-4", provider := "OpenAI"
      description := "Advanced reasoning", icon := "" }
  , { id := "claude-3-5-sonnet", name := "Claude 3.5", provider := "Anthropic"
      description := "Advanced analysis", icon := "" }
  , { id := "gemini-1.5-flash", name := "Gemini", provider := "Google"
      description := "Multimodal AI", icon := "" }
  , { id := "mixtral-8x7b", name := "Mixtral", provider := "Groq"
      description := "Open source", icon := "" } ]

/-- `getModelConfig` of `src/lib/ai-models.ts` lines 39-41:
`AI_MODELS.find(m => m.id === modelId) || AI_MODELS[0]`. -/
def getModelConfig (modelId : String) : ModelConfig :=
  (AI_MODELS.find? (fun m => m.id == modelId)).getD AI_MODELS.headI

/-- Title derivation of `createNewConversation`, `src/app/chat/page.tsx`
line 286: `firstMessage.slice(0, 50) + (firstMessage.length > 50 ? '...' : '')`. -/
def deriveTitle (firstMessage : String) : String :=
  jsSlice firstMessage 50 ++ (if jsLength firstMessage > 50 then "..." else "")

/-- A message in the chat page component state; timestamps and message type
do not influence the modelled behavior and are omitted. -/
structure ClientMsg where
  role : String
  content : String
  edited : Bool
deriving DecidableEq

/-- The state update of `handleEditMessage`, `src/app/chat/page.tsx` lines
560-566: replace the message at `index` with its copy whose content is
`newContent` and whose edited flag is set. -/
def editMessageState (messages : List ClientMsg) (index : Nat) (newContent : String) :
    List ClientMsg :=
  match messages.get? index with
  | some m => messages.set index { m with content := newContent, edited := true }
  | none => messages

/-- Message list of the `GenerationRequest` that `sendMessage`
(`src/app/chat/page.tsx` lines 408-462) posts to `/api/chat`: when not a
regeneration the new user message is appended to the captured component
state, when a regeneration the captured state is used as is; non-empty
custom instructions (modelled as `some ci`, since the empty string is falsy)
are prepended as a system message. -/
def sendMessageRequest (stateMessages : List ClientMsg) (customInstructions : Option String)
    (messageText : String) (isRegeneration : Bool) : List ClientMsg :=
  let userMessage : ClientMsg := { role := "user", content := messageText, edited := false }
  let updatedMessages := if isRegeneration then stateMessages else stateMessages ++ [userMessage]
  match customInstructions with
  | some ci => { role := "system", content := ci, edited := false } :: updatedMessages
  | none => updatedMessages

/-- The edit-and-resubmit flow of `handleEditMessage`, `src/app/chat/page.tsx`
lines 559-571: the UI state receives the edited list, and the dispatched
request comes from `sendMessage(newContent, true)`.  The source computes
`messagesToSend = updatedMessages.slice(0, index + 1)` but never passes it
anywhere; with `isRegeneration = true`, `sendMessage` builds the request from
the component message state captured at render time (the pre-edit list).
Returns (new UI state, request message list). -/
def handleEditMessageFlow (stateMessages : List ClientMsg) (index : Nat)
    (newContent : String) (customInstructions : Option String) :
    List ClientMsg × List ClientMsg :=
  let updatedMessages := editMessageState stateMessages index newContent
  (updatedMessages, sendMessageRequest stateMessages customInstructions newContent true)

/-- Outcome of the persistence insert performed by `saveMessage`. -/
inductive PersistOutcome where
  | ok
  | failed (msg : String)
deriving DecidableEq

/-- `saveMessage` of `src/app/chat/page.tsx` lines 312-331: both a returned
supabase error and a thrown exception are logged to the console and
swallowed; the function never raises. -/
def saveMessageLog (outcome : PersistOutcome) : List String :=
  match outcome with
  | .ok => []
  | .failed e => ["Error saving message: " ++ e]

/-- JS `messageText.trim()` is non-empty (the send guard). -/
def jsTrimNonempty (s : String) : Bool :=
  s.toList.any (fun c => !c.isWhitespace)

/-- Observable effects of one non-regeneration `sendMessage` submit up to the
point the completion request is issued. -/
structure SendStep where
  messagesShown : List ClientMsg
  log : List String
  requestIssued : Bool
  requestMessages : List ClientMsg
deriving DecidableEq

/-- The submit path of `sendMessage`, `src/app/chat/page.tsx` lines 408-462,
for a plain (non-regeneration) send: guard on blank text or an in-flight
request, optimistic append of the user message, best-effort persistence via
`saveMessage` (which cannot raise), then the fetch to `/api/chat` is issued
unconditionally. -/
def sendMessageStep (stateMessages : List ClientMsg) (messageText : String)
    (customInstructions : Option String) (isLoading : Bool)
    (persist : PersistOutcome) : Option SendStep :=
  if !jsTrimNonempty messageText || isLoading then none
  else
    let userMessage : ClientMsg := { role := "user", content := messageText, edited := false }
    let updatedMessages := stateMessages ++ [userMessage]
    some { messagesShown := updatedMessages
           log := saveMessageLog persist
           requestIssued := true
           requestMessages := sendMessageRequest stateMessages customInstructions messageText false }

/-- The pricing table of `calculateCost`, `src/unnamed/part_004` lines 73-80,
with the decimal prices as exact rationals. -/
def pricing (model : String) : Option (ℚ × ℚ) :=
  if model == "gpt-4" then some (3/100, 6/100)
  else if model == "gpt-4-turbo" then some (1/100, 3/100)
  else if model == "gpt-3.5-turbo" then some (5/10000, 15/10000)
  else if model == "claude-3-opus" then some (15/1000, 75/1000)
  else if model == "claude-3-sonnet" then some (3/1000, 15/1000)
  else if model == "claude-3-haiku" then some (25/100000, 125/100000)
  else none

/-- `calculateCost` of `src/unnamed/part_004` lines 72-85:
`pricing[model] || { input: 0, output: 0 }`, then
`(inputTokens * input + outputTokens * output) / 1000`. -/
def calculateCost (model : String) (inputTokens outputTokens : ℕ) : ℚ :=
  let modelPricing := (pricing model).getD (0, 0)
  (inputTokens * modelPricing.1 + outputTokens * modelPricing.2) / 1000

/-- Claim C1, counterexample: the claim asserts the claude rule is
substring-based, so `"my-claude"` (which contains but does not start with
`"claude"`) should route to Anthropic; the live route sends it to the
default branch instead.  The substring rule `providerForSpec` (which the
variant `part_001` implements) would route it to Anthropic. -/
theorem providerFor_claude_substring_refuted :
    jsIncludes "my-claude" "claude" = true ∧
    jsStartsWith "my-claude" "gpt" = false ∧
    providerFor "my-claude" = Provider.fallback ∧
    providerFor "my-claude" ≠ Provider.anthropic ∧
    providerForSpec "my-claude" = Provider.anthropic := by
  decide

/-- Characterization of the live dispatcher branch conditions, shared by the
routing theorems below. -/
lemma providerFor_iff (m : String) :
    (providerFor m = Provider.openai ↔ jsStartsWith m "gpt" = true) ∧
    (providerFor m = Provider.anthropic ↔
      jsStartsWith m "gpt" = false ∧ jsStartsWith m "claude" = true) ∧
    (providerFor m = Provider.google ↔
      jsStartsWith m "gpt" = false ∧ jsStartsWith m "claude" = false ∧
      jsIncludes m "gemini" = true) ∧
    (providerFor m = Provider.groq ↔
      jsStartsWith m "gpt" = false ∧ jsStartsWith m "claude" = false ∧
      jsIncludes m "gemini" = false ∧
      (jsIncludes m "llama" = true ∨ jsIncludes m "mixtral" = true)) ∧
    (providerFor m = Provider.fallback ↔
      jsStartsWith m "gpt" = false ∧ jsStartsWith m "claude" = false ∧
      jsIncludes m "gemini" = false ∧ jsIncludes m "llama" = false ∧
      jsIncludes m "mixtral" = false) := by
  unfold providerFor
  by_cases h1 : jsStartsWith m "gpt" <;>
    by_cases h2 : jsStartsWith m "claude" <;>
      by_cases h3 : jsIncludes m "gemini" <;>
        by_cases h4 : jsIncludes m "llama" <;>
          by_cases h5 : jsIncludes m "mixtral" <;>
            simp [h1, h2, h3, h4, h5]

/-- Claim C1, amended: in the live route the provider precedence is
starts-with `"gpt"` → OpenAI; else starts-with `"claude"` → Anthropic
(prefix-based, not substring-based); else contains `"gemini"` → Google;
else contains `"llama"` or `"mixtral"` → Groq; else the default branch. -/
theorem providerFor_precedence (m : String) :
    (providerFor m = Provider.openai ↔ jsStartsWith m "gpt" = true) ∧
    (providerFor m = Provider.anthropic ↔
      jsStartsWith m "gpt" = false ∧ jsStartsWith m "claude" = true) ∧
    (providerFor m = Provider.google ↔
      jsStartsWith m "gpt" = false ∧ jsStartsWith m "claude" = false ∧
      jsIncludes m "gemini" = true) ∧
    (providerFor m = Provider.groq ↔
      jsStartsWith m "gpt" = false ∧ jsStartsWith m "claude" = false ∧
      jsIncludes m "gemini" = false ∧
      (jsIncludes m "llama" = true ∨ jsIncludes m "mixtral" = true)) ∧
    (providerFor m = Provider.fallback ↔
      jsStartsWith m "gpt" = false ∧ jsStartsWith m "claude" = false ∧
      jsIncludes m "gemini" = false ∧ jsIncludes m "llama" = false ∧
      jsIncludes m "mixtral" = false) :=
  providerFor_iff m

/-- Concrete instantiation of `providerFor_precedence`. -/
theorem providerFor_precedence_witness :
    providerFor "claude-3-5-sonnet" = Provider.anthropic :=
  (providerFor_precedence "claude-3-5-sonnet").2.1.mpr (by decide)

/-- Claim C3, counterexample: the claimed coercion rule collapses any role
other than assistant to user, but for a message of role `"tool"` the route
produces role `"assistant"` (its rule is: user if marked user, assistant
otherwise). -/
theorem anthropic_coercion_refuted :
    (anthropicRequest "claude-3" [{ role := "tool", content := "x" }]).messages
      = [{ role := "assistant", content := "x" }] ∧
    (anthropicRequestSpec "claude-3" [{ role := "tool", content := "x" }]).messages
      = [{ role := "user", content := "x" }] ∧
    anthropicRequest "claude-3" [{ role := "tool", content := "x" }]
      ≠ anthropicRequestSpec "claude-3" [{ role := "tool", content := "x" }] := by
  decide

/-- A find? hit is exactly the first element of the list satisfying the
predicate: everything before it fails the predicate. -/
lemma find?_eq_some_first {α : Type} (p : α → Bool) (l : List α) (a : α) :
    l.find? p = some a ↔
      ∃ pre post, l = pre ++ a :: post ∧ p a = true ∧ ∀ x ∈ pre, p x = false := by
  induction l with
  | nil => simp
  | cons b t ih =>
    by_cases hb : p b
    · rw [List.find?_cons_of_pos _ hb]
      constructor
      · rintro h
        obtain rfl : b = a := by simpa using h
        exact ⟨[], t, rfl, hb, by simp⟩
      · rintro ⟨pre, post, heq, hpa, hpre⟩
        cases pre with
        | nil =>
          obtain ⟨rfl, rfl⟩ : b = a ∧ t = post := by simpa using heq
          rfl
        | cons x xs =>
          obtain ⟨rfl, -⟩ : b = x ∧ t = xs ++ a :: post := by simpa using heq
          have hfalse := hpre b (by simp)
          rw [hfalse] at hb
          exact absurd hb (by simp)
    · rw [List.find?_cons_of_neg _ hb]
      rw [ih]
      constructor
      · rintro ⟨pre, post, heq, hpa, hpre⟩
        refine ⟨b :: pre, post, by rw [heq]; rfl, hpa, ?_⟩
        intro x hx
        rcases List.mem_cons.mp hx with rfl | hx
        · simpa using hb
        · exact hpre x hx
      · rintro ⟨pre, post, heq, hpa, hpre⟩
        cases pre with
        | nil =>
          obtain ⟨rfl, rfl⟩ : b = a ∧ t = post := by simpa using heq
          exact absurd hpa hb
        | cons x xs =>
          obtain ⟨rfl, ht⟩ : b = x ∧ t = xs ++ a :: post := by simpa using heq
          exact ⟨xs, post, ht, hpa, fun y hy => hpre y (by simp [hy])⟩

/-- Claim C3, amended: the Anthropic adapter removes system-role messages
from the array, keeping the non-system messages in order coerced into roles
user/assistant by the fixed rule: user if the message is marked user,
assistant otherwise (so any role other than user collapses to assistant),
preserving contents; and the separate top-level system field carries exactly
the content of the first system-role message of the list (and is set exactly
when a system message is present). -/
theorem anthropicRequest_shaping (model : String) (messages : List Msg) :
    (∀ m' ∈ (anthropicRequest model messages).messages,
        m'.role = "user" ∨ m'.role = "assistant") ∧
    ((anthropicRequest model messages).messages
        = (messages.filter (fun m => !(m.role == "system"))).map
            (fun m => { role := if m.role == "user" then "user" else "assistant"
                        content := m.content })) ∧
    ((anthropicRequest model messages).messages.map AnthropicMsg.content
        = (messages.filter (fun m => !(m.role == "system"))).map Msg.content) ∧
    (((anthropicRequest model messages).system).isSome = true
        ↔ ∃ m ∈ messages, m.role = "system") ∧
    (∀ c, (anthropicRequest model messages).system = some c ↔
      ∃ pre m post, messages = pre ++ m :: post ∧ m.role = "system" ∧ m.content = c ∧
        ∀ m' ∈ pre, m'.role ≠ "system") ∧
    (∀ m ∈ messages, m.role ≠ "system" →
      ({ role := if m.role == "user" then "user" else "assistant",
         content := m.content } : AnthropicMsg)
        ∈ (anthropicRequest model messages).messages) := by
  refine ⟨?_, rfl, ?_, ?_, ?_, ?_⟩
  · intro m' hm'
    simp only [anthropicRequest, List.mem_map] at hm'
    obtain ⟨m, _, rfl⟩ := hm'
    by_cases h : m.role == "user" <;> simp [h]
  · simp [anthropicRequest, List.map_map]
  · simp [anthropicRequest, Option.isSome_map, List.find?_isSome]
  · intro c
    simp only [anthropicRequest, Option.map_eq_some']
    constructor
    · rintro ⟨m, hfind, rfl⟩
      obtain ⟨pre, post, heq, hpa, hpre⟩ := (find?_eq_some_first _ _ _).mp hfind
      refine ⟨pre, m, post, heq, by simpa using hpa, rfl, ?_⟩
      intro m' hm'
      simpa using hpre m' hm'
    · rintro ⟨pre, m, post, heq, hrole, rfl, hpre⟩
      refine ⟨m, (find?_eq_some_first _ _ _).mpr ⟨pre, post, heq, by simp [hrole], ?_⟩, rfl⟩
      intro x hx
      simpa using hpre x hx
  · intro m hm hrole
    simp only [anthropicRequest, List.mem_map]
    exact ⟨m, List.mem_filter.mpr ⟨hm, by simp [hrole]⟩, rfl⟩

/-- Concrete instantiation of `anthropicRequest_shaping`: the system field
carries the first system message content, and the user message survives
coerced. -/
theorem anthropicRequest_shaping_witness :
    (anthropicRequest "claude-3-5-sonnet"
        [⟨"system", "be kind"⟩, ⟨"user", "hi"⟩]).system = some "be kind" ∧
    ({ role := "user", content := "hi" } : AnthropicMsg)
      ∈ (anthropicRequest "claude-3-5-sonnet"
          [⟨"system", "be kind"⟩, ⟨"user", "hi"⟩]).messages :=
  ⟨((anthropicRequest_shaping "claude-3-5-sonnet"
      [⟨"system", "be kind"⟩, ⟨"user", "hi"⟩]).2.2.2.2.1 "be kind").mpr
        ⟨[], ⟨"system", "be kind"⟩, [⟨"user", "hi"⟩], rfl, rfl, rfl, by simp⟩,
   (anthropicRequest_shaping "claude-3-5-sonnet"
      [⟨"system", "be kind"⟩, ⟨"user", "hi"⟩]).2.2.2.2.2
        ⟨"user", "hi"⟩ (by simp) (by decide)⟩

/-- Claim C4, counterexample: for the three-message conversation
user "a" / assistant "b" / user "c" on a gemini model with the Google key
present, the claim requires the underlying call to carry the prior turns as
history with roles remapped (user "a", model "b"); the live route issues a
`generateContent` call carrying only the final content "c" and an empty
history. -/
theorem google_history_refuted :
    (routePOST (.ok { messages := [⟨"user", "a"⟩, ⟨"assistant", "b"⟩, ⟨"user", "c"⟩]
                      model := "gemini-1.5-flash", stream := false })
        { openaiKey := false, anthropicKey := false, googleKey := true, groqKey := false }
        { openaiChat := .ok "", openaiStreamChunks := .ok [], anthropicMsg := .ok none
          googleText := .ok "ok", groqChat := .ok "" }).2
      = [ProviderCall.googleCall { model := "gemini-pro", history := [], newTurn := "c" }] ∧
    googleShapeSpec [⟨"user", "a"⟩, ⟨"assistant", "b"⟩, ⟨"user", "c"⟩]
      = some ([⟨"user", "a"⟩, ⟨"model", "b"⟩], "c") ∧
    ([] : List GoogleHistEntry) ≠ [⟨"user", "a"⟩, ⟨"model", "b"⟩] := by
  decide

/-- Claim C4, amended: in the live route the Google branch discards the
prior turns entirely and submits only the final message content as a
single-turn `generateContent` call with no history; the claimed
history conversion (all but the last message, roles remapped
assistant → model / user → user, last content as the new turn) is
implemented only by the unnamed variant `src/unnamed/part_003`. -/
theorem google_branch_last_only (body : ChatBody) (env : Env) (out : ProviderOutcomes)
    (ms : List Msg) (last : Msg)
    (h1 : jsStartsWith body.model "gpt" = false)
    (h2 : jsStartsWith body.model "claude" = false)
    (h3 : jsIncludes body.model "gemini" = true)
    (h4 : env.googleKey = true)
    (h5 : body.messages = ms ++ [last]) :
    (routePOST (.ok body) env out).2
      = [ProviderCall.googleCall
          { model := "gemini-pro", history := [], newTurn := last.content }] ∧
    googleShapeVariant body.messages
      = some { model := "gemini-1.5-flash"
               history := ms.map (fun m =>
                 { role := if m.role == "assistant" then "model" else "user"
                   text := m.content })
               newTurn := last.content } := by
  constructor
  · simp only [routePOST, h1, h2, h3, h4, h5, Bool.false_eq_true, if_false, if_true,
      Bool.not_true, List.getLast?_concat]
    cases out.googleText <;> simp
  · simp [googleShapeVariant, h5, List.getLast?_concat, List.dropLast_concat]

/-- Concrete instantiation of `google_branch_last_only`. -/
theorem google_branch_last_only_witness :
    (routePOST (.ok { messages := [⟨"user", "a"⟩, ⟨"user", "c"⟩]
                      model := "gemini-1.5-flash", stream := false })
        { openaiKey := true, anthropicKey := true, googleKey := true, groqKey := true }
        { openaiChat := .ok "", openaiStreamChunks := .ok [], anthropicMsg := .ok none
          googleText := .ok "ok", groqChat := .ok "" }).2
      = [ProviderCall.googleCall { model := "gemini-pro", history := [], newTurn := "c" }] ∧
    googleShapeVariant [⟨"user", "a"⟩, ⟨"user", "c"⟩]
      = some { model := "gemini-1.5-flash", history := [⟨"user", "a"⟩], newTurn := "c" } :=
  google_branch_last_only
    { messages := [⟨"user", "a"⟩, ⟨"user", "c"⟩], model := "gemini-1.5-flash", stream := false }
    { openaiKey := true, anthropicKey := true, googleKey := true, groqKey := true }
    { openaiChat := .ok "", openaiStreamChunks := .ok [], anthropicMsg := .ok none
      googleText := .ok "ok", groqChat := .ok "" }
    [⟨"user", "a"⟩] ⟨"user", "c"⟩
    (by decide) (by decide) (by decide) rfl rfl

/-- Claim C5: every non-streaming request to `POST /api/chat` produces a
JSON response whose body carries the key `content` with a string value, on
the success path and on every failure path (missing credential, provider
exception, request-parse failure) alike. -/
theorem routePOST_content_key (parsed : Except String ChatBody) (env : Env)
    (out : ProviderOutcomes)
    (h : ∀ body, parsed = Except.ok body → body.stream = false) :
    ∃ s, responseContentOf (routePOST parsed env out).1 = some s := by
  cases parsed with
  | error msg => simp [routePOST, responseContentOf]
  | ok body =>
    have hs : body.stream = false := h body rfl
    by_cases h1 : jsStartsWith body.model "gpt"
    · cases ho : out.openaiChat <;> by_cases hk : env.openaiKey <;>
        simp [routePOST, responseContentOf, hs, h1, hk, ho]
    · by_cases h2 : jsStartsWith body.model "claude"
      · rcases ho : out.anthropicMsg with e | _ | t <;> by_cases hk : env.anthropicKey <;>
          simp [routePOST, responseContentOf, hs, h1, h2, hk, ho]
      · by_cases h3 : jsIncludes body.model "gemini"
        · cases hl : body.messages.getLast? <;> cases ho : out.googleText <;>
            by_cases hk : env.googleKey <;>
              simp [routePOST, responseContentOf, hs, h1, h2, h3, hk, hl, ho]
        · by_cases h4 : jsIncludes body.model "llama" <;>
            by_cases h5 : jsIncludes body.model "mixtral" <;>
              cases ho : out.groqChat <;> by_cases hk : env.groqKey <;>
                simp [routePOST, responseContentOf, hs, h1, h2, h3, h4, h5, hk, ho]

/-- Concrete instantiation of `routePOST_content_key`. -/
theorem routePOST_content_key_witness :
    ∃ s, responseContentOf
      (routePOST (.ok { messages := [⟨"user", "hi"⟩], model := "gpt-4", stream := false })
        { openaiKey := true, anthropicKey := false, googleKey := false, groqKey := false }
        { openaiChat := .ok "Hi there!", openaiStreamChunks := .ok [], anthropicMsg := .ok none
          googleText := .ok "", groqChat := .ok "" }).1 = some s :=
  routePOST_content_key
    (.ok { messages := [⟨"user", "hi"⟩], model := "gpt-4", stream := false })
    { openaiKey := true, anthropicKey := false, googleKey := false, groqKey := false }
    { openaiChat := .ok "Hi there!", openaiStreamChunks := .ok [], anthropicMsg := .ok none
      googleText := .ok "", groqChat := .ok "" }
    (fun body hb => by cases hb; rfl)

/-- Claim C6: when the model id routes to a provider whose credential
environment variable is absent, the route answers with a content string that
names the missing variable and performs no provider-SDK call. -/
theorem credential_gating (body : ChatBody) (env : Env) (out : ProviderOutcomes)
    (p : Provider) (hp : providerFor body.model = p) (hnf : p ≠ Provider.fallback)
    (hkey : envHasKey env p = false) :
    ∃ s, routePOST (.ok body) env out = (.json 200 [("content", s)], []) ∧
      jsIncludes s (envVarName p) = true := by
  cases p with
  | openai =>
    have h1 : jsStartsWith body.model "gpt" = true := (providerFor_iff body.model).1.mp hp
    have hk : env.openaiKey = false := hkey
    exact ⟨"Welcome to Corprex AI! To enable OpenAI models, please add your OPENAI_API_KEY in Vercel settings.",
      by simp [routePOST, h1, hk], by decide⟩
  | anthropic =>
    obtain ⟨h1, h2⟩ := (providerFor_iff body.model).2.1.mp hp
    have hk : env.anthropicKey = false := hkey
    exact ⟨"To use Claude models, please add your ANTHROPIC_API_KEY in Vercel settings.",
      by simp [routePOST, h1, h2, hk], by decide⟩
  | google =>
    obtain ⟨h1, h2, h3⟩ := (providerFor_iff body.model).2.2.1.mp hp
    have hk : env.googleKey = false := hkey
    exact ⟨"To use Gemini models, please add your GOOGLE_AI_API_KEY in Vercel settings.",
      by simp [routePOST, h1, h2, h3, hk], by decide⟩
  | groq =>
    obtain ⟨h1, h2, h3, h4⟩ := (providerFor_iff body.model).2.2.2.1.mp hp
    have hk : env.groqKey = false := hkey
    rcases h4 with h4 | h4 <;>
      exact ⟨"To use Llama/Mixtral models, please add your GROQ_API_KEY in Vercel settings.",
        by simp [routePOST, h1, h2, h3, h4, hk], by decide⟩
  | fallback => exact absurd rfl hnf

/-- Concrete instantiation of `credential_gating`: model
`"claude-3-5-sonnet"` with no Anthropic credential yields a content naming
`ANTHROPIC_API_KEY` and an empty call list. -/
theorem credential_gating_witness :
    ∃ s, routePOST
        (.ok { messages := [⟨"user", "hi"⟩], model := "claude-3-5-sonnet", stream := false })
        { openaiKey := false, anthropicKey := false, googleKey := false, groqKey := false }
        { openaiChat := .ok "", openaiStreamChunks := .ok [], anthropicMsg := .ok none
          googleText := .ok "", groqChat := .ok "" }
      = (.json 200 [("content", s)], []) ∧
      jsIncludes s (envVarName Provider.anthropic) = true :=
  credential_gating
    { messages := [⟨"user", "hi"⟩], model := "claude-3-5-sonnet", stream := false }
    { openaiKey := false, anthropicKey := false, googleKey := false, groqKey := false }
    { openaiChat := .ok "", openaiStreamChunks := .ok [], anthropicMsg := .ok none
      googleText := .ok "", groqChat := .ok "" }
    Provider.anthropic (by decide) (by decide) rfl

/-- Claim C7: resolving any model id against the catalog totally succeeds;
it returns the entry whose id matches exactly when one exists, and the
first/default catalog entry otherwise. -/
theorem getModelConfig_total (modelId : String) :
    getModelConfig modelId ∈ AI_MODELS ∧
    ((∃ m ∈ AI_MODELS, m.id = modelId) → (getModelConfig modelId).id = modelId) ∧
    ((∀ m ∈ AI_MODELS, m.id ≠ modelId) → getModelConfig modelId = AI_MODELS.headI) := by
  cases hfind : AI_MODELS.find? (fun m => m.id == modelId) with
  | none =>
    have hmem : AI_MODELS.headI ∈ AI_MODELS := by decide
    refine ⟨?_, ?_, ?_⟩
    · simpa [getModelConfig, hfind] using hmem
    · rintro ⟨m, hm, hid⟩
      have hnot := List.find?_eq_none.mp hfind m hm
      simp [hid] at hnot
    · intro _
      simp [getModelConfig, hfind]
  | some c =>
    have hcmem : c ∈ AI_MODELS := List.mem_of_find?_eq_some hfind
    have hcid : c.id = modelId := by simpa using List.find?_some hfind
    refine ⟨?_, ?_, ?_⟩
    · simpa [getModelConfig, hfind] using hcmem
    · intro _
      simp [getModelConfig, hfind, hcid]
    · intro hall
      exact absurd hcid (hall c hcmem)

/-- Concrete instantiation of `getModelConfig_total`: a hit returns the
matching entry, a miss returns the first catalog entry. -/
theorem getModelConfig_total_witness :
    getModelConfig "claude-3-5-sonnet" ∈ AI_MODELS ∧
    (getModelConfig "claude-3-5-sonnet").id = "claude-3-5-sonnet" ∧
    getModelConfig "not-a-model" = AI_MODELS.headI :=
  ⟨(getModelConfig_total "claude-3-5-sonnet").1,
   (getModelConfig_total "claude-3-5-sonnet").2.1 (by decide),
   (getModelConfig_total "not-a-model").2.2 (by decide)⟩

/-- Claim C8: the title of a new conversation is the first 50 characters of
the first user message, with "..." appended exactly when the message is
longer than 50 characters; a message of at most 50 characters becomes the
title unchanged. -/
theorem deriveTitle_spec (s : String) :
    (jsLength s ≤ 50 → deriveTitle s = s) ∧
    (50 < jsLength s → deriveTitle s = jsSlice s 50 ++ "...") := by
  constructor
  · intro h
    unfold deriveTitle
    rw [if_neg (by omega)]
    apply String.ext
    rw [String.data_append]
    show s.data.take 50 ++ ([] : List Char) = s.data
    rw [List.append_nil]
    exact List.take_of_length_le h
  · intro h
    unfold deriveTitle
    rw [if_pos h]

/-- Concrete instantiation of `deriveTitle_spec`: a short message is kept
whole, a 60-character message is cut to 50 characters plus ellipsis. -/
theorem deriveTitle_spec_witness :
    deriveTitle "Hello" = "Hello" ∧
    deriveTitle (String.mk (List.replicate 60 'a'))
      = String.mk (List.replicate 50 'a') ++ "..." :=
  ⟨(deriveTitle_spec "Hello").1 (by decide),
   ((deriveTitle_spec (String.mk (List.replicate 60 'a'))).2 (by decide)).trans (by decide)⟩

/-- Claim C2, evaluation at the failing input: editing the user message at
index 0 of a four-message conversation updates the visible state, but the
dispatched request is the full untruncated pre-edit message list (length 4,
not at most k + 1 = 1): the messages after index 0 are all included, because
the truncated `messagesToSend` list the source computes is never passed to
`sendMessage`. -/
theorem editMessage_request_not_truncated :
    (handleEditMessageFlow
        [⟨"user", "a", false⟩, ⟨"assistant", "b", false⟩,
         ⟨"user", "c", false⟩, ⟨"assistant", "d", false⟩] 0 "edited" none).1
      = [⟨"user", "edited", true⟩, ⟨"assistant", "b", false⟩,
         ⟨"user", "c", false⟩, ⟨"assistant", "d", false⟩] ∧
    (handleEditMessageFlow
        [⟨"user", "a", false⟩, ⟨"assistant", "b", false⟩,
         ⟨"user", "c", false⟩, ⟨"assistant", "d", false⟩] 0 "edited" none).2
      = [⟨"user", "a", false⟩, ⟨"assistant", "b", false⟩,
         ⟨"user", "c", false⟩, ⟨"assistant", "d", false⟩] ∧
    ¬ ((handleEditMessageFlow
        [⟨"user", "a", false⟩, ⟨"assistant", "b", false⟩,
         ⟨"user", "c", false⟩, ⟨"assistant", "d", false⟩] 0 "edited" none).2.length ≤ 0 + 1) := by
  decide

/-- Claim C9: when the persistence insert of the user message fails, the
user message is still present in the in-memory list, the completion request
is still issued, and the request is the same one a successful insert would
have produced. -/
theorem optimistic_append_survives (stateMessages : List ClientMsg) (messageText : String)
    (customInstructions : Option String) (e : String)
    (h : jsTrimNonempty messageText = true) :
    ∃ step, sendMessageStep stateMessages messageText customInstructions false
        (PersistOutcome.failed e) = some step ∧
      ({ role := "user", content := messageText, edited := false } : ClientMsg)
        ∈ step.messagesShown ∧
      step.requestIssued = true ∧
      step.requestMessages
        = sendMessageRequest stateMessages customInstructions messageText false ∧
      (sendMessageStep stateMessages messageText customInstructions false
          PersistOutcome.ok).map SendStep.requestMessages = some step.requestMessages := by
  refine ⟨{ messagesShown := stateMessages ++
              [{ role := "user", content := messageText, edited := false }]
            log := ["Error saving message: " ++ e]
            requestIssued := true
            requestMessages := sendMessageRequest stateMessages customInstructions messageText false },
          ?_, ?_, rfl, rfl, ?_⟩
  · simp [sendMessageStep, h, saveMessageLog]
  · simp
  · simp [sendMessageStep, h]

/-- Concrete instantiation of `optimistic_append_survives`. -/
theorem optimistic_append_survives_witness :
    ∃ step, sendMessageStep [] "hi" none false (PersistOutcome.failed "boom") = some step ∧
      ({ role := "user", content := "hi", edited := false } : ClientMsg) ∈ step.messagesShown ∧
      step.requestIssued = true ∧
      step.requestMessages = sendMessageRequest [] none "hi" false ∧
      (sendMessageStep [] "hi" none false PersistOutcome.ok).map SendStep.requestMessages
        = some step.requestMessages :=
  optimistic_append_survives [] "hi" none "boom" (by decide)

/-- The prices in the table are nonnegative, as is the fallback pair. -/
lemma pricing_nonneg (model : String) :
    0 ≤ ((pricing model).getD (0, 0)).1 ∧ 0 ≤ ((pricing model).getD (0, 0)).2 := by
  unfold pricing
  repeat' split
  all_goals constructor <;> norm_num

/-- Claim C10: the pricing table has no entry for the catalog models
claude-3-5-sonnet, gemini-1.5-flash and mixtral-8x7b; for any model missing
from the table the cost is exactly 0 at all token counts; the cost is never
negative; and for priced models it is
(inputTokens * inputPrice + outputTokens * outputPrice) / 1000. -/
theorem calculateCost_spec :
    (pricing "claude-3-5-sonnet" = none ∧ pricing "gemini-1.5-flash" = none ∧
      pricing "mixtral-8x7b" = none) ∧
    (∀ model i o, pricing model = none → calculateCost model i o = 0) ∧
    (∀ model i o, 0 ≤ calculateCost model i o) ∧
    (∀ model p i o, pricing model = some p →
      calculateCost model i o = (i * p.1 + o * p.2) / 1000) := by
  refine ⟨by decide, ?_, ?_, ?_⟩
  · intro model i o h
    simp [calculateCost, h]
  · intro model i o
    simp only [calculateCost]
    have h := pricing_nonneg model
    apply div_nonneg
    · exact add_nonneg (mul_nonneg (Nat.cast_nonneg i) h.1)
        (mul_nonneg (Nat.cast_nonneg o) h.2)
    · norm_num
  · intro model p i o h
    simp [calculateCost, h]

/-- Concrete instantiation of `calculateCost_spec`: an unpriced catalog
model costs exactly 0, and gpt-4 follows the per-thousand formula. -/
theorem calculateCost_spec_witness :
    calculateCost "mixtral-8x7b" 5 7 = 0 ∧
    calculateCost "gpt-4" 1000 1000 = (1000 * (3 / 100) + 1000 * (6 / 100)) / 1000 :=
  ⟨calculateCost_spec.2.1 "mixtral-8x7b" 5 7 (by decide),
   calculateCost_spec.2.2.2 "gpt-4" (3 / 100, 6 / 100) 1000 1000 (by simp [pricing])⟩

end Corprex
